import Mathlib

/-!
Shallow embedding of the test-orchestration and entry-tracking core of the
`ldap-automated-actions` repository: the `tracker` package, the per-operation
test scenarios in `internal/tests`, and the runner's dispatch / cleanup /
exit-code logic.  Directory calls are embedded as explicit outcome parameters
(`none` = the call succeeded, `some e` = the call returned error `e`), time is
an explicit parameter, and side effects (tracker updates, issued deletes) are
explicit return values.
-/

namespace LdapTest

/-! ## Errors of the directory capability (go-ldap) -/

/-- LDAP server result code `noSuchObject` (go-ldap `LDAPResultNoSuchObject`). -/
def LDAPResultNoSuchObject : Nat := 32

/-- LDAP server result code `notAllowedOnNonLeaf` (go-ldap constant). -/
def LDAPResultNotAllowedOnNonLeaf : Nat := 66

/-- LDAP server result code `entryAlreadyExists` (go-ldap constant). -/
def LDAPResultEntryAlreadyExists : Nat := 68

/-- An error returned by a directory call: either an LDAP error carrying the
server result code (go-ldap `*ldap.Error`), or some other error (network,
timeout, ...) that carries no LDAP result code. -/
inductive LdapError where
  | withCode (code : Nat)
  | other
deriving DecidableEq, Repr

/-- go-ldap's `IsErrorWithCode(err, code)`: true when the error is an LDAP
error whose result code equals `code`. -/
def IsErrorWithCode (err : LdapError) (code : Nat) : Bool :=
  match err with
  | .withCode c => c == code
  | .other => false

/-- Rendering of an error into message text (stands in for Go's `%v`). -/
def errText : LdapError → String
  | .withCode c => "ldap result code " ++ toString c
  | .other => "error"

/-- The outcome of a directory call: `none` = success (Go `err == nil`),
`some e` = the call returned error `e`. -/
abbrev DirOutcome := Option LdapError

/-! ## `internal/tests` result types (`types.go`) -/

/-- `TestResult` from the `tests` package. `Duration` is in opaque time
units; `Error` mirrors the Go `error` field (`none` = nil). -/
structure TestResult where
  Name : String
  Operation : String
  Passed : Bool
  Duration : Nat
  Error : Option LdapError
  Message : String
deriving DecidableEq, Repr

/-- `TestSuite` from the `tests` package (start/end times omitted: they feed
only `GetStats`' duration, not any claim). -/
structure TestSuite where
  Name : String
  Results : List TestResult
deriving DecidableEq, Repr

/-- `TestSuite.AllPassed`: true iff no result has `Passed = false`. -/
def TestSuite.AllPassed (ts : TestSuite) : Bool :=
  ts.Results.all (fun r => r.Passed)

/-! ## `internal/tracker` -/

/-- `tracker.EntryType`. -/
inductive EntryType where
  | TypeOU
  | TypeUser
  | TypeGroup
  | TypeOther
deriving DecidableEq, Repr

/-- `tracker.TrackedEntry`.  `CreatedAt` is an abstract clock reading. -/
structure TrackedEntry where
  DN : String
  Type' : EntryType
  CreatedAt : Nat
deriving DecidableEq, Repr

instance : Inhabited TrackedEntry := ⟨⟨"", EntryType.TypeOther, 0⟩⟩

/-- `tracker.Tracker`: the ledger of created entries (the mutex only guards
the list; it has no sequential content). -/
structure Tracker where
  entries : List TrackedEntry
deriving DecidableEq, Repr

/-- `tracker.NewTracker()`. -/
def NewTracker : Tracker := { entries := [] }

/-- `Tracker.Track(dn, entryType)`: appends a record stamped with the current
time, here an explicit `now` parameter. -/
def Tracker.Track (t : Tracker) (dn : String) (entryType : EntryType) (now : Nat) : Tracker :=
  { t with entries := t.entries ++ [{ DN := dn, Type' := entryType, CreatedAt := now }] }

/-- `Tracker.GetEntries()`: a copy of the ledger in insertion order. -/
def Tracker.GetEntries (t : Tracker) : List TrackedEntry :=
  t.entries

/-- `Tracker.GetEntriesReversed()`: the source fills a fresh slice of the same
length with `entries[len-1-i] = t.entries[i]`; equivalently position `j` of
the output holds input position `len-1-j`. -/
def Tracker.GetEntriesReversed (t : Tracker) : List TrackedEntry :=
  (List.range t.entries.length).map
    (fun j => t.entries.getD (t.entries.length - 1 - j) default)

/-- `Tracker.Count()`. -/
def Tracker.Count (t : Tracker) : Nat :=
  t.entries.length

/-- `Tracker.Clear()`: replaces the ledger with a fresh empty slice. -/
def Tracker.Clear (t : Tracker) : Tracker :=
  { t with entries := [] }

/-! ## Negative scenarios

Each scenario is a function of the outcome of the directory call(s) it
issues (plus the elapsed `duration`, which the source measures around the
call).  The branch structure is translated from the Go sources. -/

/-- `testAddDuplicate` (add.go): passes only when the add fails with
`entryAlreadyExists`; any other error, and success, fail the scenario. -/
def testAddDuplicate (testBaseDN : String) (err : DirOutcome) (duration : Nat) : TestResult :=
  let _dn := "cn=testuser," ++ testBaseDN
  let base : TestResult :=
    { Name := "Add Duplicate Entry Test (Negative)", Operation := "Add",
      Passed := false, Duration := duration, Error := none, Message := "" }
  match err with
  | some e =>
    if IsErrorWithCode e LDAPResultEntryAlreadyExists then
      { base with Passed := true, Message := "Correctly rejected duplicate entry" }
    else
      { base with
          Passed := false, Error := some e,
          Message := "Failed with unexpected error: " ++ errText e }
  | none =>
      { base with Passed := false, Message := "ERROR: Duplicate entry was accepted" }

/-- `testDeleteNonExistent` (delete.go): passes only when the delete fails
with `noSuchObject`; any other error, and success, fail the scenario. -/
def testDeleteNonExistent (testBaseDN : String) (err : DirOutcome) (duration : Nat) : TestResult :=
  let _dn := "cn=nonexistent-delete-test," ++ testBaseDN
  let base : TestResult :=
    { Name := "Delete - Non-Existent Entry Test (Negative)", Operation := "Delete",
      Passed := false, Duration := duration, Error := none, Message := "" }
  match err with
  | some e =>
    if IsErrorWithCode e LDAPResultNoSuchObject then
      { base with Passed := true, Message := "Correctly rejected deletion of non-existent entry" }
    else
      { base with
          Passed := false, Error := some e,
          Message := "Failed with unexpected error: " ++ errText e }
  | none =>
      { base with Passed := false, Message := "ERROR: Deletion of non-existent entry succeeded" }

/-- `testDeleteNonLeaf` (delete.go): the relaxed negative scenario — the
expected code is `notAllowedOnNonLeaf`, but any other error also passes;
only success fails the scenario. -/
def testDeleteNonLeaf (testBaseDN : String) (err : DirOutcome) (duration : Nat) : TestResult :=
  let _dn := testBaseDN
  let base : TestResult :=
    { Name := "Delete - Non-Leaf Entry Test (Negative)", Operation := "Delete",
      Passed := false, Duration := duration, Error := none, Message := "" }
  match err with
  | some e =>
    if IsErrorWithCode e LDAPResultNotAllowedOnNonLeaf then
      { base with Passed := true, Message := "Correctly rejected deletion of non-leaf entry" }
    else
      { base with
          Passed := true,
          Message := "Correctly rejected with error: " ++ errText e }
  | none =>
      { base with Passed := false, Message := "ERROR: Deletion of non-leaf entry succeeded" }

/-- `testModifyNonExistent` (modify.go): passes only when the modify fails
with `noSuchObject`; any other error, and success, fail the scenario. -/
def testModifyNonExistent (testBaseDN : String) (err : DirOutcome) (duration : Nat) : TestResult :=
  let _dn := "cn=nonexistent," ++ testBaseDN
  let base : TestResult :=
    { Name := "Modify - Non-Existent Entry Test (Negative)", Operation := "Modify",
      Passed := false, Duration := duration, Error := none, Message := "" }
  match err with
  | some e =>
    if IsErrorWithCode e LDAPResultNoSuchObject then
      { base with Passed := true, Message := "Correctly rejected modification of non-existent entry" }
    else
      { base with
          Passed := false, Error := some e,
          Message := "Failed with unexpected error: " ++ errText e }
  | none =>
      { base with Passed := false, Message := "ERROR: Modification of non-existent entry succeeded" }

/-- `testCompareNonExistent` (compare.go): the compare's boolean result is
discarded by the source (`_, err := ...Compare(...)`); passes only when the
call fails with `noSuchObject`. -/
def testCompareNonExistent (testBaseDN : String) (err : DirOutcome) (duration : Nat) : TestResult :=
  let _dn := "cn=nonexistent," ++ testBaseDN
  let base : TestResult :=
    { Name := "Compare - Non-Existent Entry Test (Negative)", Operation := "Compare",
      Passed := false, Duration := duration, Error := none, Message := "" }
  match err with
  | some e =>
    if IsErrorWithCode e LDAPResultNoSuchObject then
      { base with Passed := true, Message := "Correctly returned error for non-existent entry" }
    else
      { base with
          Passed := false, Error := some e,
          Message := "Failed with unexpected error: " ++ errText e }
  | none =>
      { base with Passed := false, Message := "ERROR: Compare succeeded on non-existent entry" }

/-- `testRenameToExisting` (modifydn.go): the relaxed negative scenario — the
expected code is `entryAlreadyExists`, but any other error also passes
("Still pass if it failed (just different error)"); only success fails. -/
def testRenameToExisting (testBaseDN : String) (err : DirOutcome) (duration : Nat) : TestResult :=
  let _oldDN := "cn=testuser," ++ testBaseDN
  let base : TestResult :=
    { Name := "Modify DN - Rename to Existing DN Test (Negative)", Operation := "ModifyDN",
      Passed := false, Duration := duration, Error := none, Message := "" }
  match err with
  | some e =>
    if IsErrorWithCode e LDAPResultEntryAlreadyExists then
      { base with Passed := true, Message := "Correctly rejected rename to existing DN" }
    else
      { base with
          Passed := true,
          Message := "Failed as expected with error: " ++ errText e }
  | none =>
      { base with Passed := false, Message := "ERROR: Rename to existing DN succeeded" }

/-! ## Cleanup (`PerformCleanup`, delete.go) -/

/-- The body of `PerformCleanup`'s loop over the snapshot: one delete per
entry, in order, with no early termination.  Returns the ordered trace of DNs
a delete was issued for, the success count, and the failure count. -/
def cleanupLoop (del : String → DirOutcome) : List TrackedEntry → List String × Nat × Nat
  | [] => ([], 0, 0)
  | e :: rest =>
    let r := cleanupLoop del rest
    match del e.DN with
    | some _ => (e.DN :: r.1, (r.2.1, r.2.2 + 1))
    | none => (e.DN :: r.1, (r.2.1 + 1, r.2.2))

/-- `PerformCleanup(conn, trk)` (delete.go), the directory's delete embedded
as `del` and side effects made explicit: returns the tracker as the function
leaves it (the source only reads the `GetEntriesReversed` snapshot), the
ordered trace of DNs it issued deletes for, and the returned error (`none` =
nil, `some n` = "cleanup completed with n failures"). -/
def PerformCleanup (del : String → DirOutcome) (trk : Tracker) :
    Tracker × List String × Option Nat :=
  let entries := trk.GetEntriesReversed
  if entries.length = 0 then
    (trk, [], none)
  else
    let r := cleanupLoop del entries
    let failCount := r.2.2
    (trk, r.1, if failCount > 0 then some failCount else none)

/-! ## ModifyDN positive scenarios (modifydn.go) -/

/-- `testRenameEntry`: creates `cn=rename-test-user` (tracked on success),
then renames it to RDN `cn=renamed-user`; on rename success the new DN is
also tracked.  `addErr` and `renameErr` are the outcomes of the Add and
ModifyDN calls; the produced tracker is returned alongside the result. -/
def testRenameEntry (testBaseDN : String) (addErr renameErr : DirOutcome)
    (now duration : Nat) (trk : Tracker) : TestResult × Tracker :=
  let oldDN := "cn=rename-test-user," ++ testBaseDN
  match addErr with
  | some e =>
    ({ Name := "Modify DN - Rename Entry Test", Operation := "ModifyDN",
       Passed := false, Duration := 0, Error := some e,
       Message := "Failed to create test entry" }, trk)
  | none =>
    let trk1 := trk.Track oldDN EntryType.TypeUser now
    let base : TestResult :=
      { Name := "Modify DN - Rename Entry Test", Operation := "ModifyDN",
        Passed := false, Duration := duration, Error := none, Message := "" }
    match renameErr with
    | some e =>
      ({ base with
          Passed := false, Error := some e,
          Message := "Failed to rename entry: " ++ errText e }, trk1)
    | none =>
      let newDN := "cn=renamed-user," ++ testBaseDN
      ({ base with
          Passed := true,
          Message := "Successfully renamed entry from " ++ oldDN ++ " to " ++ newDN },
       trk1.Track newDN EntryType.TypeUser now)

/-- `testMoveEntry`: creates `ou=target-ou` (a failure there is tolerated and
merely not tracked), creates `cn=move-test-user` (tracked on success), then
moves it under the target OU keeping the same RDN; on move success the new
DN is also tracked. -/
def testMoveEntry (testBaseDN : String) (ouErr addErr moveErr : DirOutcome)
    (now duration : Nat) (trk : Tracker) : TestResult × Tracker :=
  let targetOUDN := "ou=target-ou," ++ testBaseDN
  let trk0 :=
    match ouErr with
    | some _ => trk
    | none => trk.Track targetOUDN EntryType.TypeOU now
  let oldDN := "cn=move-test-user," ++ testBaseDN
  match addErr with
  | some e =>
    ({ Name := "Modify DN - Move Entry Test", Operation := "ModifyDN",
       Passed := false, Duration := 0, Error := some e,
       Message := "Failed to create test entry" }, trk0)
  | none =>
    let trk1 := trk0.Track oldDN EntryType.TypeUser now
    let base : TestResult :=
      { Name := "Modify DN - Move Entry Test", Operation := "ModifyDN",
        Passed := false, Duration := duration, Error := none, Message := "" }
    match moveErr with
    | some e =>
      ({ base with
          Passed := false, Error := some e,
          Message := "Failed to move entry: " ++ errText e }, trk1)
    | none =>
      let newDN := "cn=move-test-user," ++ targetOUDN
      ({ base with
          Passed := true,
          Message := "Successfully moved entry from " ++ oldDN ++ " to " ++ newDN },
       trk1.Track newDN EntryType.TypeUser now)

/-! ## The external directory capability, for the parts of the claims that
speak about the server's state.  The capability is an external collaborator
(spec section 6); its code is not under src/. -/

/-- Modelled from the spec: the external directory capability's
`add(conn, dn, attributes)` creates the entry named `dn`; the directory state
is abstracted to the list of DNs present. -/
def dirAdd (dir : List String) (dn : String) : List String :=
  dir ++ [dn]

/-- Modelled from the spec: the external directory capability's
`rename(conn, oldDn, newRdn, deleteOldRdn, newSuperior)` with
`deleteOldRdn = true` (as every ModifyDN scenario passes) gives the entry its
new name, so the pre-rename DN ceases to exist in the directory. -/
def dirRename (dir : List String) (oldDn newDn : String) : List String :=
  (dir.filter (fun d => d ≠ oldDn)) ++ [newDn]

/-! ## Runner: suite dispatch, setup, loop, exit code (runner.go) -/

/-- The eight suites `executeTests` can dispatch. -/
inductive SuiteName where
  | bind
  | add
  | search
  | compare
  | modify
  | modifydn
  | delete
  | abandon
deriving DecidableEq, Repr

/-- `Runner.executeTests`, observed as the ordered list of suites it
dispatches: under dry-run it returns immediately; otherwise it walks the
fixed chain of `if testSuite == "all" || testSuite == "<name>"` blocks in
source order Bind, Add, Search, Compare, Modify, ModifyDN, Delete, Abandon. -/
def executeTestsOrder (testSuite : String) (dryRun : Bool) : List SuiteName :=
  if dryRun then []
  else
    (if testSuite == "all" || testSuite == "bind" then [SuiteName.bind] else [])
    ++ (if testSuite == "all" || testSuite == "add" then [SuiteName.add] else [])
    ++ (if testSuite == "all" || testSuite == "search" then [SuiteName.search] else [])
    ++ (if testSuite == "all" || testSuite == "compare" then [SuiteName.compare] else [])
    ++ (if testSuite == "all" || testSuite == "modify" then [SuiteName.modify] else [])
    ++ (if testSuite == "all" || testSuite == "modifydn" then [SuiteName.modifydn] else [])
    ++ (if testSuite == "all" || testSuite == "delete" then [SuiteName.delete] else [])
    ++ (if testSuite == "all" || testSuite == "abandon" then [SuiteName.abandon] else [])

/-- `Runner.executeTests` at the result level: each selected suite's
outcomes (the suite functions abstracted as `run`) are appended to the
current suite's `Results`, block by block in source order. -/
def executeTestsSuite (testSuite : String) (dryRun : Bool)
    (run : SuiteName → List TestResult) (suite : TestSuite) : TestSuite :=
  if dryRun then suite
  else
    let s1 := if testSuite == "all" || testSuite == "bind" then
      { suite with Results := suite.Results ++ run SuiteName.bind } else suite
    let s2 := if testSuite == "all" || testSuite == "add" then
      { s1 with Results := s1.Results ++ run SuiteName.add } else s1
    let s3 := if testSuite == "all" || testSuite == "search" then
      { s2 with Results := s2.Results ++ run SuiteName.search } else s2
    let s4 := if testSuite == "all" || testSuite == "compare" then
      { s3 with Results := s3.Results ++ run SuiteName.compare } else s3
    let s5 := if testSuite == "all" || testSuite == "modify" then
      { s4 with Results := s4.Results ++ run SuiteName.modify } else s4
    let s6 := if testSuite == "all" || testSuite == "modifydn" then
      { s5 with Results := s5.Results ++ run SuiteName.modifydn } else s5
    let s7 := if testSuite == "all" || testSuite == "delete" then
      { s6 with Results := s6.Results ++ run SuiteName.delete } else s6
    let s8 := if testSuite == "all" || testSuite == "abandon" then
      { s7 with Results := s7.Results ++ run SuiteName.abandon } else s7
    s8

/-- The configuration fields the runner consults (config package). -/
structure Config where
  BaseDN : String
  TestPrefix : String
  TestSuite : String
  DryRun : Bool
  Cleanup : Bool
  CleanupOnSuccess : Bool
  Loop : Bool
deriving Repr

/-- `Runner.setup`: synthesizes the timestamped test-root name
`ou=<prefix>-<timestamp>,<baseDN>`; under dry-run it returns that name
without issuing any directory Add and without tracking; otherwise it issues
the Add (outcome `addOut`), returns an error when the Add failed, and tracks
the created OU.  Returns (returned name or failure, tracker afterwards,
DNs an Add was issued for). -/
def setup (cfg : Config) (timestamp : String) (now : Nat)
    (addOut : DirOutcome) (trk : Tracker) :
    Option String × Tracker × List String :=
  let testOUName := cfg.TestPrefix ++ "-" ++ timestamp
  let testBaseDN := "ou=" ++ testOUName ++ "," ++ cfg.BaseDN
  if cfg.DryRun then
    (some testBaseDN, trk, [])
  else
    match addOut with
    | some _ => (none, trk, [testBaseDN])
    | none => (some testBaseDN, trk.Track testBaseDN EntryType.TypeOU now, [testBaseDN])

/-- The fresh suite `NewRunner` installs and `RunLoop` re-installs after
every iteration. -/
def freshSuite : TestSuite :=
  { Name := "LDAP Operations Test Suite", Results := [] }

/-- `Runner.GetExitCode()`. -/
def GetExitCode (suite : TestSuite) : Nat :=
  if suite.AllPassed then 0 else 1

/-- `Runner.RunLoop`'s effect on the runner's `suite` field, the iterations
described by the outcome sequences the successive `runOnce` calls append: an
iteration fills the current suite with its results and then — after the
iteration summary is printed and its statistics are folded into `loopStats` —
unconditionally resets the suite to a fresh one and clears the tracker; the
loop exits (count reached, or interrupt received) only at the top of the next
iteration.  Returns the suite as the loop leaves it. -/
def runLoopSuite : List (List TestResult) → TestSuite → TestSuite
  | [], suite => suite
  | rs :: rest, suite =>
    let _filled := { suite with Results := suite.Results ++ rs }
    runLoopSuite rest freshSuite

/-- The runner's `suite` field after `Run()` returns: loop mode runs
`RunLoop` starting from the fresh suite `NewRunner` installed; single-run
mode runs `runOnce` once, which appends that run's outcomes. -/
def suiteAfterRun (loop : Bool) (runs : List (List TestResult)) : TestSuite :=
  if loop then runLoopSuite runs freshSuite
  else { freshSuite with Results := freshSuite.Results ++ runs.headD [] }

/-- `main`'s final exit code on the non-fatal path: `runner.Run()` returned
nil and the process exits with `runner.GetExitCode()`. -/
def processExitCode (loop : Bool) (runs : List (List TestResult)) : Nat :=
  GetExitCode (suiteAfterRun loop runs)

/-- `trackAll`: a sequence of `Track` calls (DN, type, clock reading),
left to right. -/
def trackAll (t : Tracker) (calls : List (String × EntryType × Nat)) : Tracker :=
  calls.foldl (fun acc c => acc.Track c.1 c.2.1 c.2.2) t

end LdapTest

/-! ## Helper lemmas -/

namespace LdapTest

/-- The filled-then-reversed snapshot is the reverse of the ledger. -/
theorem getEntriesReversed_eq (t : Tracker) :
    t.GetEntriesReversed = t.GetEntries.reverse := by
  unfold Tracker.GetEntriesReversed Tracker.GetEntries
  apply List.ext_getElem
  · simp
  · intro i h1 h2
    simp only [List.getElem_map, List.getElem_range, List.getElem_reverse]
    have hlen : t.entries.length - 1 - i < t.entries.length := by
      simp only [List.length_reverse] at h2
      omega
    exact List.getD_eq_getElem _ _ hlen

/-- The cleanup loop issues one delete per entry, in order. -/
theorem cleanupLoop_trace (del : String → DirOutcome) (l : List TrackedEntry) :
    (cleanupLoop del l).1 = l.map (fun e => e.DN) := by
  induction l with
  | nil => rfl
  | cons e rest ih =>
    simp only [cleanupLoop, List.map_cons]
    cases del e.DN <;> simp [ih]

/-- The cleanup loop's failure counter counts the entries whose delete
failed. -/
theorem cleanupLoop_failCount (del : String → DirOutcome) (l : List TrackedEntry) :
    (cleanupLoop del l).2.2 = l.countP (fun e => (del e.DN).isSome) := by
  induction l with
  | nil => rfl
  | cons e rest ih =>
    simp only [cleanupLoop, List.countP_cons]
    cases h : del e.DN <;> simp [h, ih]

/-- `PerformCleanup`'s delete trace, in both the empty and non-empty case. -/
theorem performCleanup_trace (del : String → DirOutcome) (trk : Tracker) :
    (PerformCleanup del trk).2.1 = trk.GetEntriesReversed.map (fun e => e.DN) := by
  simp only [PerformCleanup]
  split
  · rename_i h
    rw [List.length_eq_zero] at h
    simp [h]
  · exact cleanupLoop_trace del _

/-- `PerformCleanup`'s returned error, in both cases. -/
theorem performCleanup_err (del : String → DirOutcome) (trk : Tracker) :
    (PerformCleanup del trk).2.2 =
      (if trk.entries.countP (fun e => (del e.DN).isSome) = 0 then none
       else some (trk.entries.countP (fun e => (del e.DN).isSome))) := by
  have hcnt : trk.GetEntriesReversed.countP (fun e => (del e.DN).isSome)
      = trk.entries.countP (fun e => (del e.DN).isSome) := by
    rw [getEntriesReversed_eq]
    exact (List.countP_reverse _ _)
  simp only [PerformCleanup]
  split
  · rename_i h
    rw [List.length_eq_zero] at h
    have h0 : trk.entries = [] := by
      have hl := congrArg List.length (getEntriesReversed_eq trk)
      rw [h] at hl
      simpa [Tracker.GetEntries] using hl.symm
    simp [h0]
  · rw [cleanupLoop_failCount, hcnt]
    obtain h0 | h0 := Nat.eq_zero_or_pos (List.countP (fun e => (del e.DN).isSome) trk.entries)
    · simp [h0]
    · rw [if_pos h0, if_neg (by omega)]

end LdapTest

namespace LdapTest

/-- The ledger after a sequence of `Track` calls: the old ledger followed by
one record per call, in call order. -/
theorem trackAll_entries (t : Tracker) (calls : List (String × EntryType × Nat)) :
    (trackAll t calls).entries
      = t.entries ++ calls.map (fun c => ⟨c.1, c.2.1, c.2.2⟩) := by
  induction calls generalizing t with
  | nil => simp [trackAll]
  | cons c rest ih =>
    simp only [trackAll, List.foldl_cons, List.map_cons]
    rw [show List.foldl (fun acc c => acc.Track c.1 c.2.1 c.2.2) (t.Track c.1 c.2.1 c.2.2) rest
          = trackAll (t.Track c.1 c.2.1 c.2.2) rest from rfl]
    rw [ih]
    simp [Tracker.Track]

/-- `RunLoop` leaves a fresh suite behind whenever it started one. -/
theorem runLoopSuite_fresh (runs : List (List TestResult)) :
    runLoopSuite runs freshSuite = freshSuite := by
  induction runs with
  | nil => rfl
  | cons rs rest ih => simpa [runLoopSuite] using ih

/-- The post-rename DN differs from the pre-rename DN (their fixed RDN parts
have different lengths). -/
theorem renamed_ne_old (bdn : String) :
    ("cn=renamed-user," ++ bdn) ≠ ("cn=rename-test-user," ++ bdn) := by
  intro h
  have hl := congrArg String.length h
  rw [String.length_append, String.length_append] at hl
  have e1 : ("cn=renamed-user," : String).length = 16 := rfl
  have e2 : ("cn=rename-test-user," : String).length = 20 := rfl
  rw [e1, e2] at hl
  omega

end LdapTest

/-! ## Claim theorems -/

namespace LdapTest

/-- C1: For every negative scenario — duplicate add, delete of a
non-existent entry, modify of a non-existent entry, rename onto an existing
DN, compare against a non-existent entry, delete of a non-leaf — if the
underlying directory call returns success, the produced TestResult has
`Passed = false`. -/
theorem negative_success_always_fails (bdn : String) (d : Nat) :
    (testAddDuplicate bdn none d).Passed = false
    ∧ (testDeleteNonExistent bdn none d).Passed = false
    ∧ (testModifyNonExistent bdn none d).Passed = false
    ∧ (testRenameToExisting bdn none d).Passed = false
    ∧ (testCompareNonExistent bdn none d).Passed = false
    ∧ (testDeleteNonLeaf bdn none d).Passed = false :=
  ⟨rfl, rfl, rfl, rfl, rfl, rfl⟩

/-- C2 counterexample: `testDeleteNonExistent` observing a failing directory
call whose error carries result code 1 (not the expected `noSuchObject` 32)
produces `Passed = false` — refuting "any error code is still accepted as a
pass" as a policy of every negative scenario. -/
theorem relaxed_pass_policy_counterexample :
    (testDeleteNonExistent "ou=t,dc=example,dc=com"
        (some (LdapError.withCode 1)) 0).Passed = false := rfl

/-- C2 (amended): when the directory call fails, the relaxed "any error
passes" policy holds only for the non-leaf-delete and rename-onto-existing
scenarios; the duplicate-add, delete-non-existent, modify-non-existent and
compare-non-existent scenarios pass exactly when the error carries the
semantically expected server result code, and fail on any other error. -/
theorem negative_error_pass_policy (bdn : String) (e : LdapError) (d : Nat) :
    (testDeleteNonLeaf bdn (some e) d).Passed = true
    ∧ (testRenameToExisting bdn (some e) d).Passed = true
    ∧ (testDeleteNonExistent bdn (some e) d).Passed = IsErrorWithCode e LDAPResultNoSuchObject
    ∧ (testAddDuplicate bdn (some e) d).Passed = IsErrorWithCode e LDAPResultEntryAlreadyExists
    ∧ (testModifyNonExistent bdn (some e) d).Passed = IsErrorWithCode e LDAPResultNoSuchObject
    ∧ (testCompareNonExistent bdn (some e) d).Passed = IsErrorWithCode e LDAPResultNoSuchObject := by
  refine ⟨?_, ?_, ?_, ?_, ?_, ?_⟩ <;>
    simp only [testDeleteNonLeaf, testRenameToExisting, testDeleteNonExistent,
      testAddDuplicate, testModifyNonExistent, testCompareNonExistent] <;>
    split <;> simp_all

/-- C8: the reverse-cleanup pass does not mutate the ledger: the tracker
`PerformCleanup` leaves behind answers `GetEntries` and `Count` exactly as
before the call, whatever the per-entry delete outcomes. -/
theorem cleanup_preserves_tracker (del : String → DirOutcome) (trk : Tracker) :
    ((PerformCleanup del trk).1).GetEntries = trk.GetEntries
    ∧ ((PerformCleanup del trk).1).Count = trk.Count := by
  simp only [PerformCleanup]
  split <;> exact ⟨rfl, rfl⟩

/-- C9: `Clear` is idempotent — clearing twice in a row yields the same
state as clearing once — and `Count` returns 0 after either. -/
theorem clear_idempotent (t : Tracker) :
    t.Clear.Clear = t.Clear ∧ t.Clear.Count = 0 ∧ t.Clear.Clear.Count = 0 :=
  ⟨rfl, rfl, rfl⟩

end LdapTest

namespace LdapTest

/-- C3 counterexample: in loop mode, one iteration whose only outcome failed
still yields process exit code 0 — `RunLoop` resets the suite after every
iteration, so the final exit code does not reflect the last iteration's
outcomes (the claim requires 1 here). -/
theorem exit_code_loop_counterexample :
    (let failing : TestResult :=
      { Name := "Add OU Test", Operation := "Add", Passed := false,
        Duration := 0, Error := some LdapError.other, Message := "Failed to add OU" }
     failing.Passed = false ∧ processExitCode true [[failing]] = 0) :=
  ⟨rfl, rfl⟩

/-- C3 (amended): in single-run mode the exit code is 0 iff the completed
run had zero failing outcomes, and 1 otherwise; in loop mode, because
`RunLoop` resets the suite at the end of every iteration, the exit code
after the loop ends is always 0, whatever any iteration's outcomes were. -/
theorem exit_code_contract (rs : List TestResult) (runs : List (List TestResult)) :
    (processExitCode false [rs] = if rs.all (fun r => r.Passed) then 0 else 1)
    ∧ processExitCode true runs = 0 := by
  constructor
  · simp [processExitCode, suiteAfterRun, GetExitCode, TestSuite.AllPassed, freshSuite]
  · have h1 : runLoopSuite runs { Name := "LDAP Operations Test Suite", Results := [] }
        = { Name := "LDAP Operations Test Suite", Results := [] } :=
      runLoopSuite_fresh runs
    simp [processExitCode, suiteAfterRun, freshSuite, h1, GetExitCode, TestSuite.AllPassed]

/-- C4: cleanup completeness under partial failure — `PerformCleanup` issues
exactly one delete per tracked entry, in reverse insertion order with no
early termination, and returns nil when no delete failed, and otherwise an
error whose failure count is exactly the number of tracked entries the
delete capability fails on. -/
theorem cleanup_completeness (del : String → DirOutcome) (trk : Tracker) :
    (PerformCleanup del trk).2.1 = (trk.GetEntries.reverse).map (fun e => e.DN)
    ∧ (PerformCleanup del trk).2.2 =
        (if trk.GetEntries.countP (fun e => (del e.DN).isSome) = 0 then none
         else some (trk.GetEntries.countP (fun e => (del e.DN).isSome))) := by
  constructor
  · rw [performCleanup_trace, getEntriesReversed_eq]
  · exact performCleanup_err del trk

/-- C5: the reverse-order invariant — after any sequence of `Track` calls on
a fresh tracker, `GetEntriesReversed` equals the reversal of `GetEntries`;
in particular its DNs are the tracked DNs in reverse call order. -/
theorem reverse_order_invariant (calls : List (String × EntryType × Nat)) :
    (trackAll NewTracker calls).GetEntriesReversed
        = (trackAll NewTracker calls).GetEntries.reverse
    ∧ (trackAll NewTracker calls).GetEntriesReversed.map (fun e => e.DN)
        = (calls.map (fun c => c.1)).reverse := by
  refine ⟨getEntriesReversed_eq _, ?_⟩
  rw [getEntriesReversed_eq]
  unfold Tracker.GetEntries
  rw [trackAll_entries]
  simp [NewTracker, List.map_reverse, List.map_map, Function.comp]

/-- C6: with suite selection "all" (dry-run off), `executeTests` dispatches
the suites in exactly the fixed order Bind, Add, Search, Compare, Modify,
ModifyDN, Delete, Abandon, appending each suite's outcomes to the current
run in that order; in particular Add is dispatched strictly before Search,
Compare, Modify, ModifyDN and Delete — every suite that references the entry
named "testuser". -/
theorem all_suites_fixed_order (run : SuiteName → List TestResult) (suite : TestSuite) :
    executeTestsOrder "all" false
      = [SuiteName.bind, SuiteName.add, SuiteName.search, SuiteName.compare,
         SuiteName.modify, SuiteName.modifydn, SuiteName.delete, SuiteName.abandon]
    ∧ (executeTestsSuite "all" false run suite).Results
        = suite.Results ++ run SuiteName.bind ++ run SuiteName.add
          ++ run SuiteName.search ++ run SuiteName.compare ++ run SuiteName.modify
          ++ run SuiteName.modifydn ++ run SuiteName.delete ++ run SuiteName.abandon
    ∧ (executeTestsOrder "all" false).indexOf SuiteName.add
        < (executeTestsOrder "all" false).indexOf SuiteName.search
    ∧ (executeTestsOrder "all" false).indexOf SuiteName.add
        < (executeTestsOrder "all" false).indexOf SuiteName.compare
    ∧ (executeTestsOrder "all" false).indexOf SuiteName.add
        < (executeTestsOrder "all" false).indexOf SuiteName.modify
    ∧ (executeTestsOrder "all" false).indexOf SuiteName.add
        < (executeTestsOrder "all" false).indexOf SuiteName.modifydn
    ∧ (executeTestsOrder "all" false).indexOf SuiteName.add
        < (executeTestsOrder "all" false).indexOf SuiteName.delete := by
  refine ⟨by decide, rfl, by decide, by decide, by decide, by decide, by decide⟩

/-- C7: with dry-run set, `setup` returns the synthesized test-root name
without issuing any directory Add and without tracking anything, and
`executeTests` dispatches no suite and appends nothing — the suite run and
the tracker are left exactly as they were (in particular, still empty when
they started empty). -/
theorem dry_run_frame (cfg : Config) (ts : String) (now : Nat)
    (addOut : DirOutcome) (trk : Tracker) (run : SuiteName → List TestResult)
    (suite : TestSuite) (h : cfg.DryRun = true) :
    setup cfg ts now addOut trk
      = (some ("ou=" ++ (cfg.TestPrefix ++ "-" ++ ts) ++ "," ++ cfg.BaseDN), trk, [])
    ∧ executeTestsSuite cfg.TestSuite cfg.DryRun run suite = suite
    ∧ executeTestsOrder cfg.TestSuite cfg.DryRun = [] := by
  refine ⟨?_, ?_, ?_⟩
  · simp [setup, h]
  · simp [executeTestsSuite, h]
  · simp [executeTestsOrder, h]

/-- C7 witness: the dry-run frame property at a concrete configuration. -/
theorem dry_run_frame_witness :
    setup { BaseDN := "dc=example,dc=com", TestPrefix := "ldap-test",
            TestSuite := "all", DryRun := true, Cleanup := false,
            CleanupOnSuccess := false, Loop := false }
        "20250101-120000" 0 none NewTracker
      = (some ("ou=" ++ ("ldap-test" ++ "-" ++ "20250101-120000") ++ ","
          ++ "dc=example,dc=com"), NewTracker, [])
    ∧ executeTestsSuite "all" true (fun _ => []) freshSuite = freshSuite
    ∧ executeTestsOrder "all" true = [] :=
  dry_run_frame _ "20250101-120000" 0 none NewTracker (fun _ => []) freshSuite rfl

/-- C10: when a ModifyDN scenario's entry creation and rename (or move) both
succeed, the tracker keeps the pre-rename record and gains the post-rename
one — tracking the new name never removes or replaces the old record — so a
later cleanup pass also issues a delete for the pre-rename DN, a name the
directory capability's rename (deleteOldRDN = true) has already removed. -/
theorem modifydn_tracks_old_and_new (bdn : String) (trk : Tracker)
    (dir : List String) (del : String → DirOutcome) (n d : Nat) :
    ((testRenameEntry bdn none none n d trk).2).GetEntries.map (fun e => e.DN)
        = trk.GetEntries.map (fun e => e.DN)
          ++ ["cn=rename-test-user," ++ bdn, "cn=renamed-user," ++ bdn]
    ∧ ("cn=rename-test-user," ++ bdn)
        ∈ (PerformCleanup del (testRenameEntry bdn none none n d trk).2).2.1
    ∧ ("cn=rename-test-user," ++ bdn)
        ∉ dirRename (dirAdd dir ("cn=rename-test-user," ++ bdn))
            ("cn=rename-test-user," ++ bdn) ("cn=renamed-user," ++ bdn)
    ∧ ((testMoveEntry bdn none none none n d trk).2).GetEntries.map (fun e => e.DN)
        = trk.GetEntries.map (fun e => e.DN)
          ++ ["ou=target-ou," ++ bdn, "cn=move-test-user," ++ bdn,
              "cn=move-test-user," ++ ("ou=target-ou," ++ bdn)]
    ∧ ("cn=move-test-user," ++ bdn)
        ∈ (PerformCleanup del (testMoveEntry bdn none none none n d trk).2).2.1 := by
  refine ⟨?_, ?_, ?_, ?_, ?_⟩
  · simp [testRenameEntry, Tracker.Track, Tracker.GetEntries]
  · rw [performCleanup_trace, getEntriesReversed_eq]
    simp [testRenameEntry, Tracker.Track, Tracker.GetEntries, List.map_reverse,
      List.mem_reverse]
  · simp [dirRename, dirAdd, List.mem_filter, (renamed_ne_old bdn).symm]
  · simp [testMoveEntry, Tracker.Track, Tracker.GetEntries]
  · rw [performCleanup_trace, getEntriesReversed_eq]
    simp [testMoveEntry, Tracker.Track, Tracker.GetEntries, List.map_reverse,
      List.mem_reverse]

end LdapTest
